import Mathlib

/-!
Verification development for the market-data-service repository
(`app/db.py`, `app/crud.py`, `app/main.py`, `app/ws.py`, `app/models.py`,
`app/config.py`).

The Python code is shallowly embedded: the relational store behind
`get_conn` is modelled as a `DB` value holding the rows of the `candles`
table together with an optional injected connection failure and an optional
injected statement failure; each crud function becomes a pure function from
a `DB` and its arguments to an `Except` value mirroring the exceptions the
Python function can raise; the WebSocket replay handler becomes a function
producing the list of observable events (frames sent, sleeps, closes) in
order. SQL clauses are modelled by list operations: `WHERE` by `filter`,
`ORDER BY ts` by an insertion sort on the timestamp, `LIMIT` by `take`,
`DISTINCT` by `dedup`. Prices are carried as integers; the service never
computes with them. Python `datetime` values are modelled by `PyDatetime`
(calendar fields plus an optional UTC offset, mirroring naive vs aware
objects), and `datetime.fromisoformat` by an executable parser for the
ISO subset `YYYY-MM-DD[THH:MM[:SS]][+HH:MM|-HH:MM]`; host/port detail in
connection error messages and the datetime rendering inside the range
NotFound message are abstracted, as the claims never inspect them.
-/

namespace MarketData

/-- One OHLCV bar, as selected from the `candles` table and carried by the
`Candle` pydantic model of `app/models.py`. Price and volume fields are
carried opaquely (no arithmetic is ever performed on them), `ts` is the
bar timestamp as an instant. -/
structure Candle where
  ticker : String
  tf_min : Int
  ts : Int
  op : Int
  hi : Int
  lo : Int
  cl : Int
  vol : Int
  openint : Int
deriving DecidableEq

/-- A failure raised while establishing the connection in `get_conn` of
`app/db.py`: `psycopg.OperationalError`, `psycopg.errors.QueryCanceled`,
another `psycopg.Error`, or any other exception. -/
inductive ConnErr where
  | operationalError (msg : String)
  | queryCanceled
  | pgError (msg : String)
  | other (msg : String)
deriving DecidableEq

/-- A failure raised while executing or fetching a statement inside a crud
function: `psycopg.errors.QueryCanceled` (statement timeout) or another
`psycopg.errors.Error`. -/
inductive QueryErr where
  | queryCanceled
  | pgError (msg : String)
deriving DecidableEq

/-- The external store as the service observes it: the rows of the
`candles` table, plus an optional failure injected at connection time and
an optional failure injected at statement time. -/
structure DB where
  rows : List Candle
  connectError : Option ConnErr := none
  queryError : Option QueryErr := none
deriving DecidableEq

/-- Settings defaults from `app/config.py`. -/
def DB_CONNECT_TIMEOUT : Int := 5

/-- Settings default from `app/config.py`. -/
def DB_COMMAND_TIMEOUT : Int := 30

/-- Settings default from `app/config.py`. -/
def MAX_LIMIT : Int := 5000

/-- Settings default from `app/config.py`. -/
def DEFAULT_TF_MIN : Int := 5

/-- Settings default from `app/config.py`. -/
def WS_DEFAULT_STEP_SECONDS : Int := 15

/-- Settings default from `app/config.py`. -/
def WS_MAX_STEP_SECONDS : Int := 60

/-- Settings default from `app/config.py`. -/
def WS_MIN_STEP_SECONDS : Int := 1

/-- The `DatabaseConnectionError` message produced by each `except` arm of
`get_conn` in `app/db.py` (host/port interpolation abstracted). -/
def connErrMsg : ConnErr → String
  | .operationalError e =>
      s!"Cannot connect to database server. Connection timeout after {DB_CONNECT_TIMEOUT} seconds. Error: {e}"
  | .queryCanceled =>
      s!"Query timeout: Database operation exceeded {DB_COMMAND_TIMEOUT} seconds."
  | .pgError e => s!"Database connection error. Error: {e}"
  | .other e => s!"Unexpected error connecting to database server. Error: {e}"

/-- `get_conn` of `app/db.py`: opens a connection, or raises
`DatabaseConnectionError` (modelled as the `Except.error` carrying the
message) when the store signals a connection-time failure. -/
def get_conn (db : DB) : Except String Unit :=
  match db.connectError with
  | some e => .error (connErrMsg e)
  | none => .ok ()

/-- The `DatabaseConnectionError` message a crud function wraps a
statement-time failure into (`except psycopg.errors.QueryCanceled` and
`except psycopg.errors.Error` arms shared by every crud function). -/
def queryErrMsg : QueryErr → String
  | .queryCanceled => "Query timeout: Database operation took too long."
  | .pgError e => s!"Database query error: {e}"

/-- Executing the statement on an open connection: surfaces the injected
statement-time failure, if any. -/
def runQuery (db : DB) : Except QueryErr Unit :=
  match db.queryError with
  | some q => .error q
  | none => .ok ()

/-- The exceptions a crud function of `app/crud.py` can raise:
`NotFoundError`, `BadRequestError`, `DatabaseConnectionError` (the
`Unavailable` kind of the design), and an uncaught Python exception
(`pyError`, e.g. the `TypeError` of comparing a naive and an aware
datetime), each carrying its message. -/
inductive CrudError where
  | notFound (msg : String)
  | badRequest (msg : String)
  | dbError (msg : String)
  | pyError (msg : String)
deriving DecidableEq

/-- Insert `a` into `l` before the first element `b` with `le a b`. -/
def insertLe {α : Type} (le : α → α → Bool) (a : α) : List α → List α
  | [] => [a]
  | b :: l => if le a b then a :: b :: l else b :: insertLe le a l

/-- Insertion sort by `le`; models a SQL `ORDER BY`. -/
def insertionSort {α : Type} (le : α → α → Bool) : List α → List α
  | [] => []
  | a :: l => insertLe le a (insertionSort le l)

/-- Timestamp-ascending comparison (`ORDER BY ts ASC`). -/
def tsLe (a b : Candle) : Bool := decide (a.ts ≤ b.ts)

/-- Timestamp-descending comparison (`ORDER BY ts DESC`). -/
def tsGe (a b : Candle) : Bool := decide (b.ts ≤ a.ts)

/-- Python `not ticker.strip()`: true exactly when the string is empty or
consists of whitespace only. -/
def tickerBlank (t : String) : Bool := t.data.all (fun c => c.isWhitespace)

/-- The rows matching `WHERE ticker = %s AND tf_min = %s`. -/
def matching (db : DB) (ticker : String) (tf_min : Int) : List Candle :=
  db.rows.filter (fun c => c.ticker == ticker && c.tf_min == tf_min)

/-- The `NotFoundError` message of `get_candles` in `app/crud.py`. -/
def noCandlesMsg (ticker : String) (tf_min : Int) : String :=
  s!"No candles found for ticker '{ticker}' with timeframe {tf_min}min"

/-- The `NotFoundError` message of `get_candles_range` in `app/crud.py`
(the datetime rendering of the range bounds is abstracted). -/
def noCandlesRangeMsg (ticker : String) (tf_min : Int) : String :=
  s!"No candles found for ticker '{ticker}' with timeframe {tf_min}min in range"

/-- `get_candles` of `app/crud.py`: validate ticker, tf_min, limit and
order; connect; run
`SELECT ... WHERE ticker = %s AND tf_min = %s ORDER BY ts {order} LIMIT %s`;
raise `NotFoundError` on an empty result set, else return the rows. -/
def get_candles (db : DB) (ticker : String) (tf_min limit : Int)
    (order : String) : Except CrudError (List Candle) :=
  if tickerBlank ticker then
    .error (.badRequest s!"Invalid ticker parameter: {ticker}. Must be a non-empty string.")
  else if tf_min < 1 then
    .error (.badRequest s!"Invalid tf_min parameter: {tf_min}. Must be a positive integer.")
  else if limit < 1 then
    .error (.badRequest s!"Invalid limit parameter: {limit}. Must be a positive integer.")
  else if ¬ (order = "asc" ∨ order = "desc") then
    .error (.badRequest s!"Invalid order parameter: {order}. Must be 'asc' or 'desc'")
  else
    match get_conn db with
    | .error m => .error (.dbError m)
    | .ok _ =>
      match runQuery db with
      | .error q => .error (.dbError (queryErrMsg q))
      | .ok _ =>
        let sorted := if order = "desc"
          then insertionSort tsGe (matching db ticker tf_min)
          else insertionSort tsLe (matching db ticker tf_min)
        let rows := sorted.take limit.toNat
        if rows.isEmpty then .error (.notFound (noCandlesMsg ticker tf_min))
        else .ok rows

/-- String comparison for `ORDER BY ticker ASC`. -/
def strLe (a b : String) : Bool := decide (a ≤ b)

/-- Case-insensitive prefix match at the character level: models the SQL
`ticker ILIKE 'p%'` filter for a literal prefix `p`. -/
def isPrefixLower : List Char → List Char → Bool
  | [], _ => true
  | _ :: _, [] => false
  | a :: p2, b :: t2 => (a.toLower == b.toLower) && isPrefixLower p2 t2

/-- `ticker ILIKE 'p%'` on strings. -/
def ilikePrefix (p t : String) : Bool := isPrefixLower p.data t.data

/-- `list_symbols` of `app/crud.py`: validate limit; connect; run
`SELECT DISTINCT ticker ... ORDER BY ticker ASC LIMIT %s`, with
`WHERE ticker ILIKE 'p%'` when a non-empty prefix is given (Python
truthiness: `if prefix:` skips the filter for `None` and for the empty
string); an empty result is returned as an empty list, never an error. -/
def list_symbols (db : DB) (limit : Int) (pfx : Option String) :
    Except CrudError (List String) :=
  if limit < 1 then
    .error (.badRequest s!"Invalid limit parameter: {limit}. Must be a positive integer.")
  else
    match get_conn db with
    | .error m => .error (.dbError m)
    | .ok _ =>
      match runQuery db with
      | .error q => .error (.dbError (queryErrMsg q))
      | .ok _ =>
        let names := (db.rows.map (fun c => c.ticker)).dedup
        let filtered := match pfx with
          | some p =>
              if p ≠ "" then names.filter (fun t => ilikePrefix p t)
              else names
          | none => names
        .ok ((insertionSort strLe filtered).take limit.toNat)

/-- A Python `datetime` as `datetime.fromisoformat` constructs one: calendar
fields, plus the UTC offset in seconds when the source string carried an
offset (`none` models a naive datetime). -/
structure PyDatetime where
  year : Nat
  month : Nat
  day : Nat
  hour : Nat
  minute : Nat
  second : Nat
  utcoffset : Option Int
deriving DecidableEq

/-- Gregorian leap year. -/
def isLeap (y : Nat) : Bool := (y % 4 == 0 && y % 100 != 0) || y % 400 == 0

/-- Days in a month of the proleptic Gregorian calendar. -/
def daysInMonth (y m : Nat) : Nat :=
  if m = 2 then (if isLeap y then 29 else 28)
  else if m = 4 ∨ m = 6 ∨ m = 9 ∨ m = 11 then 30
  else 31

/-- Day number of a proleptic Gregorian date (civil-days algorithm,
valid for the years 1..9999 that `fromisoformat` accepts). -/
def daysFromCivil (y m d : Nat) : Nat :=
  let y2 := if m ≤ 2 then y - 1 else y
  let era := y2 / 400
  let yoe := y2 % 400
  let mp := (m + 9) % 12
  let doy := (153 * mp + 2) / 5 + (d - 1)
  let doe := yoe * 365 + yoe / 4 - yoe / 100 + doy
  era * 146097 + doe

/-- The naive (wall-clock) value of a datetime in seconds; Python compares
two naive datetimes by their field tuples, which this value orders the
same way. -/
def PyDatetime.naiveSeconds (d : PyDatetime) : Int :=
  (daysFromCivil d.year d.month d.day : Int) * 86400
    + (d.hour : Int) * 3600 + (d.minute : Int) * 60 + (d.second : Int)

/-- The instant of a datetime (UTC seconds); a naive datetime is taken at
offset zero, matching how the store compares it to stored timestamps. -/
def PyDatetime.utcInstant (d : PyDatetime) : Int :=
  d.naiveSeconds - d.utcoffset.getD 0

/-- Python `a > b` on datetimes: field order for two naive values, instant
order for two aware values, and a `TypeError` (`none`) when naive and
aware are mixed. -/
def pyGt (a b : PyDatetime) : Option Bool :=
  match a.utcoffset, b.utcoffset with
  | none, none => some (decide (b.naiveSeconds < a.naiveSeconds))
  | some oa, some ob =>
      some (decide (b.naiveSeconds - ob < a.naiveSeconds - oa))
  | _, _ => none

/-- One decimal digit. -/
def parseDigit (c : Char) : Option Nat :=
  if c.isDigit then some (c.toNat - '0'.toNat) else none

/-- Two decimal digits. -/
def digit2 (a b : Char) : Option Nat := do
  let x ← parseDigit a
  let y ← parseDigit b
  pure (10 * x + y)

/-- Four decimal digits. -/
def digit4 (a b c d : Char) : Option Nat := do
  let x ← digit2 a b
  let y ← digit2 c d
  pure (100 * x + y)

/-- A `+HH:MM` or `-HH:MM` UTC offset, in seconds. -/
def parseOffsetChars : List Char → Option Int
  | [sg, a, b, ':', c, d] => do
      let hh ← digit2 a b
      let mm ← digit2 c d
      if hh ≤ 23 ∧ mm ≤ 59 then
        if sg = '+' then pure ((hh : Int) * 3600 + (mm : Int) * 60)
        else if sg = '-' then pure (-((hh : Int) * 3600 + (mm : Int) * 60))
        else none
      else none
  | _ => none

/-- The `HH:MM[:SS]` part of an ISO string, with an optional trailing
offset: hour, minute, second and offset. -/
def parseTimeChars : List Char → Option (Nat × Nat × Nat × Option Int)
  | a :: b :: ':' :: c :: d :: rest => do
      let hh ← digit2 a b
      let mm ← digit2 c d
      if hh ≤ 23 ∧ mm ≤ 59 then
        match rest with
        | [] => pure (hh, mm, 0, none)
        | ':' :: e :: f :: rest2 => do
            let ss ← digit2 e f
            if ss ≤ 59 then
              match rest2 with
              | [] => pure (hh, mm, ss, none)
              | off => do
                  let o ← parseOffsetChars off
                  pure (hh, mm, ss, some o)
            else none
        | off => do
            let o ← parseOffsetChars off
            pure (hh, mm, 0, some o)
      else none
  | _ => none

/-- `datetime.fromisoformat` on the character list of the string, for the
subset `YYYY-MM-DD[<sep>HH:MM[:SS]][+HH:MM|-HH:MM]`; as in Python, the
single separator between the date and the time may be any character
(usually `T`); `none` models the `ValueError` of an unparseable string. -/
def fromisoChars : List Char → Option PyDatetime
  | y1 :: y2 :: y3 :: y4 :: '-' :: m1 :: m2 :: '-' :: d1 :: d2 :: rest => do
      let y ← digit4 y1 y2 y3 y4
      let mo ← digit2 m1 m2
      let dy ← digit2 d1 d2
      if 1 ≤ y ∧ 1 ≤ mo ∧ mo ≤ 12 ∧ 1 ≤ dy ∧ dy ≤ daysInMonth y mo then
        match rest with
        | [] => pure ⟨y, mo, dy, 0, 0, 0, none⟩
        | _ :: timeChars => do
            let (hh, mm, ss, off) ← parseTimeChars timeChars
            pure ⟨y, mo, dy, hh, mm, ss, off⟩
      else none
  | _ => none

/-- `datetime.fromisoformat` on a string. -/
def fromisoformat (s : String) : Option PyDatetime := fromisoChars s.data

/-- Python `s.replace('Z', '+00:00')` at the character level: every `Z`
is replaced (for the strings the endpoint accepts, the trailing UTC
marker is the only `Z`). -/
def replaceZChars : List Char → List Char
  | [] => []
  | c :: cs =>
      (if c = 'Z' then ['+', '0', '0', ':', '0', '0'] else [c]) ++ replaceZChars cs

/-- Python `s.replace('Z', '+00:00')`. -/
def pyReplaceZ (s : String) : String := ⟨replaceZChars s.data⟩

/-- `get_candles_range` of `app/crud.py`: validate ticker, tf_min, limit
and `start ≤ end`; connect; run
`SELECT ... WHERE ticker = %s AND tf_min = %s AND ts >= %s AND ts <= %s
ORDER BY ts ASC LIMIT %s`; raise `NotFoundError` on an empty result set.
A naive/aware comparison raises `TypeError`, modelled as `pyError`. -/
def get_candles_range (db : DB) (ticker : String) (tf_min : Int)
    (start end_ : PyDatetime) (limit : Int) : Except CrudError (List Candle) :=
  if tickerBlank ticker then
    .error (.badRequest s!"Invalid ticker parameter: {ticker}. Must be a non-empty string.")
  else if tf_min < 1 then
    .error (.badRequest s!"Invalid tf_min parameter: {tf_min}. Must be a positive integer.")
  else if limit < 1 then
    .error (.badRequest s!"Invalid limit parameter: {limit}. Must be a positive integer.")
  else
    match pyGt start end_ with
    | none => .error (.pyError "cannot compare naive and aware datetimes")
    | some true => .error (.badRequest "Start datetime must be before or equal to end datetime")
    | some false =>
      match get_conn db with
      | .error m => .error (.dbError m)
      | .ok _ =>
        match runQuery db with
        | .error q => .error (.dbError (queryErrMsg q))
        | .ok _ =>
          let inRange := (matching db ticker tf_min).filter
            (fun c => start.utcInstant ≤ c.ts && c.ts ≤ end_.utcInstant)
          let rows := (insertionSort tsLe inRange).take limit.toNat
          if rows.isEmpty then
            .error (.notFound (noCandlesRangeMsg ticker tf_min))
          else .ok rows

/-- `get_first_last_ts` of `app/crud.py`: validate ticker and tf_min;
connect; run `SELECT MIN(ts), MAX(ts) ...`; both aggregates are NULL
exactly when no row matches, and the function then returns `None`
(no error), else the pair. -/
def get_first_last_ts (db : DB) (ticker : String) (tf_min : Int) :
    Except CrudError (Option (Int × Int)) :=
  if tickerBlank ticker then
    .error (.badRequest s!"Invalid ticker parameter: {ticker}. Must be a non-empty string.")
  else if tf_min < 1 then
    .error (.badRequest s!"Invalid tf_min parameter: {tf_min}. Must be a positive integer.")
  else
    match get_conn db with
    | .error m => .error (.dbError m)
    | .ok _ =>
      match runQuery db with
      | .error q => .error (.dbError (queryErrMsg q))
      | .ok _ =>
        match matching db ticker tf_min with
        | [] => .ok none
        | c :: rest =>
            .ok (some
              (rest.foldl (fun a x => min a x.ts) c.ts,
               rest.foldl (fun a x => max a x.ts) c.ts))

/-- One frame sent over the WebSocket channel: a `WsStatusMessage`
(message, ticker, tf_min, step_seconds, total_candles) or a
`WsCandleMessage` (candle, seq) of `app/models.py`. -/
inductive Frame where
  | status (message : String) (ticker : String) (tf_min : Int)
      (step_seconds : Int) (total_candles : Nat)
  | candle (c : Candle) (seq : Nat)
deriving DecidableEq

/-- One observable action of the replay handler, in order: sending a
frame, suspending for `step_seconds` (`asyncio.sleep`), or closing the
channel with a close code (1000 is the default of `websocket.close()`). -/
inductive Event where
  | send (f : Frame)
  | sleep (seconds : Int)
  | close (code : Nat)
deriving DecidableEq

/-- The body of the replay loop of `replay_candles` in `app/ws.py`
(`for seq, candle in enumerate(candles)`): send the candle frame, then
sleep `step_seconds` when `seq < total_candles - 1`. -/
def streamLoop (total : Nat) (step : Int) : Nat → List Candle → List Event
  | _, [] => []
  | seq, c :: rest =>
      .send (.candle c seq) ::
        ((if seq < total - 1 then [.sleep step] else [])
          ++ streamLoop total step (seq + 1) rest)

/-- `replay_candles` of `app/ws.py` as the ordered list of its observable
events: fetch the full ascending history with `get_candles(ticker, tf_min,
limit=100000, order="asc")`; on success, either the dead empty-list branch
(status then close 1008) or the announcing status, the paced loop, the
completion status and a normal close; each `except` arm sends one status
frame and closes with its code (1008 for NotFound/BadRequest, 1011 for
DatabaseConnectionError and for an unexpected exception). -/
def replay_candles (db : DB) (ticker : String) (tf_min step_seconds : Int) :
    List Event :=
  match get_candles db ticker tf_min 100000 "asc" with
  | .ok candles =>
    if candles.isEmpty then
      [.send (.status "No candles found for ticker" ticker tf_min step_seconds 0),
       .close 1008]
    else
      .send (.status "replay_starting" ticker tf_min step_seconds candles.length)
        :: (streamLoop candles.length step_seconds 0 candles
            ++ [.send (.status "replay_complete" ticker tf_min step_seconds candles.length),
                .close 1000])
  | .error (.notFound m) =>
      [.send (.status m ticker tf_min step_seconds 0), .close 1008]
  | .error (.badRequest m) =>
      [.send (.status s!"Invalid request: {m}" ticker tf_min step_seconds 0), .close 1008]
  | .error (.dbError m) =>
      [.send (.status s!"Database connection error: {m}" ticker tf_min step_seconds 0), .close 1011]
  | .error (.pyError m) =>
      [.send (.status s!"Error: {m}" ticker tf_min step_seconds 0), .close 1011]

/-- The frames of an event list, in order (sleeps and closes dropped). -/
def framesOf (evs : List Event) : List Frame :=
  evs.filterMap (fun e => match e with | .send f => some f | _ => none)

/-- The `seq` fields of the CANDLE frames of a frame list, in order. -/
def candleSeqs (fs : List Frame) : List Nat :=
  fs.filterMap (fun f => match f with | .candle _ s => some s | _ => none)

/-- The candles of the CANDLE frames of a frame list, in order. -/
def candlesOf (fs : List Frame) : List Candle :=
  fs.filterMap (fun f => match f with | .candle c _ => some c | _ => none)

/-- Whether an event is a suspension. -/
def isSleep : Event → Bool
  | .sleep _ => true
  | _ => false

/-- The number of suspensions in an event list. -/
def countSleeps (evs : List Event) : Nat := evs.countP isSleep

/-- A frame with the echoed `step_seconds` field of a STATUS frame
normalised away, for stating which parts of a frame are independent of the
pacing parameter. -/
def eraseStep : Frame → Frame
  | .status m t tf _ n => .status m t tf 0 n
  | f => f

/-- The CANDLE frames the replay loop emits: one per candle, `seq`
counting up from the accumulator. -/
def candleFrames : Nat → List Candle → List Frame
  | _, [] => []
  | n, c :: rest => .candle c n :: candleFrames (n + 1) rest

/-- The replay loop's events as the design describes them: a sleep strictly
between consecutive candle frames and no sleep after the last. -/
def pacedStream (step : Int) : Nat → List Candle → List Event
  | _, [] => []
  | n, [c] => [.send (.candle c n)]
  | n, c :: c2 :: rest =>
      .send (.candle c n) :: .sleep step :: pacedStream step (n + 1) (c2 :: rest)

/-- The guard of the dead `if not candles` branch of `replay_candles`:
true when the fetch returned successfully with an empty list. -/
def replayEmptyBranch (db : DB) (ticker : String) (tf_min : Int) : Bool :=
  match get_candles db ticker tf_min 100000 "asc" with
  | .ok candles => candles.isEmpty
  | .error _ => false

/-- The error responses of the REST layer in `app/main.py`: the FastAPI
`Query` constraint rejection and `BadRequestError` are the design's
`InvalidArgument` (400/422), `NotFoundError` is `NotFound` (404),
`DatabaseConnectionError` is `Unavailable` (503), and the catch-all
`HTTPException(500)` is `internal`. -/
inductive RestError where
  | invalidArgument (msg : String)
  | notFound (msg : String)
  | unavailable (msg : String)
  | internal (msg : String)
deriving DecidableEq

/-- How an exception escaping a crud call surfaces from a REST handler:
the exception handlers of `app/main.py` plus the catch-all
`except Exception` arm of each endpoint. -/
def mapCrud : CrudError → RestError
  | .badRequest m => .invalidArgument m
  | .notFound m => .notFound m
  | .dbError m => .unavailable m
  | .pyError _ => .internal "Internal server error"

/-- The body of a candle listing response (`CandleResponse` of
`app/models.py`). -/
structure CandleResponse where
  data : List Candle
  count : Nat
deriving DecidableEq

/-- `GET /symbols` of `app/main.py`: FastAPI rejects a limit outside
`[1, MAX_LIMIT]` before the handler runs; the handler calls
`list_symbols` and wraps the result with its count. -/
def get_symbols (db : DB) (limit : Int) (pfx : Option String) :
    Except RestError (List String × Nat) :=
  if limit < 1 ∨ MAX_LIMIT < limit then
    .error (.invalidArgument "query parameter validation failed")
  else
    match list_symbols db limit pfx with
    | .ok syms => .ok (syms, syms.length)
    | .error e => .error (mapCrud e)

/-- `GET /candles` of `app/main.py`: FastAPI rejects `tf_min < 1`, a limit
outside `[1, MAX_LIMIT]` and an order other than asc/desc before the
handler runs; the handler calls `get_candles` and wraps the result. -/
def get_candles_endpoint (db : DB) (ticker : String) (tf_min limit : Int)
    (order : String) : Except RestError CandleResponse :=
  if tf_min < 1 ∨ limit < 1 ∨ MAX_LIMIT < limit
      ∨ ¬ (order = "asc" ∨ order = "desc") then
    .error (.invalidArgument "query parameter validation failed")
  else
    match get_candles db ticker tf_min limit order with
    | .ok cs => .ok ⟨cs, cs.length⟩
    | .error e => .error (mapCrud e)

/-- `GET /candles/range` of `app/main.py`: FastAPI constraint checks,
then `datetime.fromisoformat(start.replace('Z', '+00:00'))` with
`BadRequestError` on a parse failure (likewise for `end`), then the
`start_dt > end_dt` check (mixed naive/aware comparison is a `TypeError`
caught by the catch-all arm as a 500), then `get_candles_range`. -/
def get_candles_range_endpoint (db : DB) (ticker : String) (tf_min : Int)
    (start end_ : String) (limit : Int) : Except RestError CandleResponse :=
  if tf_min < 1 ∨ limit < 1 ∨ MAX_LIMIT < limit then
    .error (.invalidArgument "query parameter validation failed")
  else
    match fromisoformat (pyReplaceZ start) with
    | none => .error (.invalidArgument s!"Invalid start datetime format: {start}. Use ISO format.")
    | some start_dt =>
      match fromisoformat (pyReplaceZ end_) with
      | none => .error (.invalidArgument s!"Invalid end datetime format: {end_}. Use ISO format.")
      | some end_dt =>
        match pyGt start_dt end_dt with
        | none => .error (.internal "Internal server error")
        | some true => .error (.invalidArgument "Start datetime must be before end datetime")
        | some false =>
          match get_candles_range db ticker tf_min start_dt end_dt limit with
          | .ok cs => .ok ⟨cs, cs.length⟩
          | .error e => .error (mapCrud e)

theorem mem_insertLe {α : Type} (le : α → α → Bool) (a x : α) (l : List α) :
    x ∈ insertLe le a l ↔ x = a ∨ x ∈ l := by
  induction l with
  | nil => simp [insertLe]
  | cons b t ih =>
    by_cases hab : le a b = true <;>
      simp [insertLe, hab, ih, List.mem_cons] <;> tauto

theorem pairwise_insertLe {α : Type} (le : α → α → Bool)
    (total : ∀ a b : α, le a b = true ∨ le b a = true)
    (htrans : ∀ a b c : α, le a b = true → le b c = true → le a c = true)
    (a : α) (l : List α) (h : l.Pairwise (fun x y => le x y = true)) :
    (insertLe le a l).Pairwise (fun x y => le x y = true) := by
  induction l with
  | nil => simp [insertLe]
  | cons b t ih =>
    rcases List.pairwise_cons.mp h with ⟨hb, ht⟩
    by_cases hab : le a b = true
    · simp only [insertLe, if_pos hab]
      refine List.pairwise_cons.mpr ⟨?_, h⟩
      intro y hy
      rcases List.mem_cons.mp hy with rfl | hyt
      · exact hab
      · exact htrans a b y hab (hb y hyt)
    · simp only [insertLe, if_neg hab]
      refine List.pairwise_cons.mpr ⟨?_, ih ht⟩
      intro y hy
      rcases (mem_insertLe le a y t).mp hy with hya | hyt
      · rw [hya]
        rcases total a b with h1 | h1
        · exact absurd h1 hab
        · exact h1
      · exact hb y hyt

theorem pairwise_insertionSort {α : Type} (le : α → α → Bool)
    (total : ∀ a b : α, le a b = true ∨ le b a = true)
    (htrans : ∀ a b c : α, le a b = true → le b c = true → le a c = true)
    (l : List α) :
    (insertionSort le l).Pairwise (fun x y => le x y = true) := by
  induction l with
  | nil => simp [insertionSort]
  | cons a t ih => exact pairwise_insertLe le total htrans a _ ih

theorem tsLe_total : ∀ a b : Candle, tsLe a b = true ∨ tsLe b a = true := by
  intro a b
  simp only [tsLe, decide_eq_true_eq]
  omega

theorem tsLe_trans :
    ∀ a b c : Candle, tsLe a b = true → tsLe b c = true → tsLe a c = true := by
  intro a b c
  simp only [tsLe, decide_eq_true_eq]
  omega

/-- Inversion of a successful `get_candles` call: every validation passed,
the store raised nothing, and the result is the sorted, truncated match
set, which is non-empty. -/
theorem get_candles_ok_inv {db : DB} {ticker : String} {tf_min limit : Int}
    {order : String} {cs : List Candle}
    (h : get_candles db ticker tf_min limit order = .ok cs) :
    db.connectError = none ∧ db.queryError = none ∧
    cs = (if order = "desc"
      then insertionSort tsGe (matching db ticker tf_min)
      else insertionSort tsLe (matching db ticker tf_min)).take limit.toNat ∧
    cs ≠ [] := by
  rcases hc : db.connectError with _ | e
  · rcases hq : db.queryError with _ | q
    · unfold get_candles at h
      simp only [get_conn, runQuery, hc, hq] at h
      split_ifs at h with h1 h2 h3 h4 h5 <;> try simp at h
      all_goals refine ⟨rfl, rfl, ?_, ?_⟩
      · rw [if_pos h5]
        exact h.symm
      · intro hnil
        subst hnil
        simp_all
      · rw [if_neg h5]
        exact h.symm
      · intro hnil
        subst hnil
        simp_all
    · unfold get_candles at h
      simp only [get_conn, runQuery, hc, hq] at h
      split_ifs at h <;> simp at h
  · unfold get_candles at h
    simp only [get_conn, hc] at h
    split_ifs at h <;> simp at h

theorem framesOf_streamLoop (total : Nat) (step : Int) (n : Nat)
    (cs : List Candle) :
    framesOf (streamLoop total step n cs) = candleFrames n cs := by
  induction cs generalizing n with
  | nil => rfl
  | cons c rest ih =>
    by_cases h : n < total - 1 <;>
      simp [streamLoop, candleFrames, framesOf, h, List.filterMap_cons,
        List.filterMap_append, ih n.succ, framesOf] at * <;>
      exact ih _

theorem candleSeqs_candleFrames (n : Nat) (cs : List Candle) :
    candleSeqs (candleFrames n cs) = List.range' n cs.length := by
  induction cs generalizing n with
  | nil => rfl
  | cons c rest ih =>
    simp only [candleFrames, candleSeqs, List.filterMap_cons, List.length_cons]
    rw [show List.range' n (rest.length + 1) = n :: List.range' (n + 1) rest.length from rfl]
    simpa [candleSeqs] using ih (n + 1)

theorem candlesOf_candleFrames (n : Nat) (cs : List Candle) :
    candlesOf (candleFrames n cs) = cs := by
  induction cs generalizing n with
  | nil => rfl
  | cons c rest ih =>
    simp only [candleFrames, candlesOf, List.filterMap_cons]
    simpa [candlesOf] using ih (n + 1)

theorem length_candleFrames (n : Nat) (cs : List Candle) :
    (candleFrames n cs).length = cs.length := by
  induction cs generalizing n with
  | nil => rfl
  | cons c rest ih => simp [candleFrames, ih (n + 1)]

theorem streamLoop_eq_pacedStream (step : Int) (total : Nat) :
    ∀ (cs : List Candle) (n : Nat), n + cs.length = total →
      streamLoop total step n cs = pacedStream step n cs := by
  intro cs
  induction cs with
  | nil => intro n _; rfl
  | cons c rest ih =>
    intro n h
    cases rest with
    | nil =>
      have hn : ¬ (n < total - 1) := by simp at h; omega
      simp [streamLoop, pacedStream, hn]
    | cons c2 rest2 =>
      have hn : n < total - 1 := by
        simp only [List.length_cons] at h; omega
      simp only [streamLoop, pacedStream, if_pos hn]
      simp only [List.cons_append, List.nil_append, List.cons.injEq, true_and]
      exact ih (n + 1) (by simp only [List.length_cons] at h ⊢; omega)

theorem countSleeps_pacedStream (step : Int) (n : Nat) (cs : List Candle) :
    countSleeps (pacedStream step n cs) = cs.length - 1 := by
  induction cs generalizing n with
  | nil => rfl
  | cons c rest ih =>
    cases rest with
    | nil => rfl
    | cons c2 rest2 =>
      have h2 := ih (n + 1)
      simp [pacedStream, countSleeps, List.countP_cons, isSleep] at h2 ⊢
      omega

theorem replaceZChars_append (l1 l2 : List Char) :
    replaceZChars (l1 ++ l2) = replaceZChars l1 ++ replaceZChars l2 := by
  induction l1 with
  | nil => rfl
  | cons c t ih => simp [replaceZChars, ih, List.append_assoc]

theorem replaceZChars_noZ {l : List Char} (h : 'Z' ∉ l) :
    replaceZChars l = l := by
  induction l with
  | nil => rfl
  | cons c t ih =>
    simp only [List.mem_cons, not_or] at h
    have hc : ¬ c = 'Z' := fun hcz => h.1 hcz.symm
    simp [replaceZChars, hc, ih h.2]

/-- Appending the UTC marker `Z` and then applying the endpoint's
`replace('Z', '+00:00')` yields exactly the string with the explicit
offset, provided the stem contains no other `Z`. -/
theorem pyReplaceZ_trailing (s : String) (h : 'Z' ∉ s.data) :
    pyReplaceZ (s ++ "Z") = s ++ "+00:00" := by
  apply String.ext
  show replaceZChars (s ++ "Z").data = (s ++ "+00:00").data
  rw [String.data_append, String.data_append, replaceZChars_append,
    replaceZChars_noZ h]
  rfl

/-- `replace('Z', '+00:00')` leaves the explicit-offset string unchanged,
provided the stem contains no `Z`. -/
theorem pyReplaceZ_offset (s : String) (h : 'Z' ∉ s.data) :
    pyReplaceZ (s ++ "+00:00") = s ++ "+00:00" := by
  apply String.ext
  show replaceZChars (s ++ "+00:00").data = (s ++ "+00:00").data
  rw [String.data_append, replaceZChars_append, replaceZChars_noZ h,
    replaceZChars_noZ (by decide)]

/-- The full event trace of a replay whose fetch succeeded with a
non-empty history: announcing status, paced loop, completion status,
normal close. -/
theorem replay_events_shape {db : DB} {ticker : String} {tf_min : Int}
    {cs : List Candle} (step : Int)
    (hfetch : get_candles db ticker tf_min 100000 "asc" = .ok cs)
    (hne : cs ≠ []) :
    replay_candles db ticker tf_min step =
      .send (.status "replay_starting" ticker tf_min step cs.length)
        :: (streamLoop cs.length step 0 cs
            ++ [.send (.status "replay_complete" ticker tf_min step cs.length),
                .close 1000]) := by
  have hemp : cs.isEmpty = false := by
    cases cs
    · exact absurd rfl hne
    · rfl
  unfold replay_candles
  rw [hfetch]
  simp [hemp]

/-- The frames of such a replay: starting status, the candle frames with
`seq` counting from 0, completion status. -/
theorem replay_frames_shape {db : DB} {ticker : String} {tf_min : Int}
    {cs : List Candle} (step : Int)
    (hfetch : get_candles db ticker tf_min 100000 "asc" = .ok cs)
    (hne : cs ≠ []) :
    framesOf (replay_candles db ticker tf_min step) =
      .status "replay_starting" ticker tf_min step cs.length
        :: (candleFrames 0 cs
            ++ [.status "replay_complete" ticker tf_min step cs.length]) := by
  rw [replay_events_shape step hfetch hne]
  simp [framesOf, List.filterMap_cons, List.filterMap_append]
  rw [show List.filterMap
        (fun e => match e with | .send f => some f | _ => none)
        (streamLoop cs.length step 0 cs)
      = framesOf (streamLoop cs.length step 0 cs) from rfl,
    framesOf_streamLoop]

/-- Fixture: three candles of `("ACME", 5)` at timestamps 100, 200, 300,
stored out of order. -/
def wC0 : Candle := ⟨"ACME", 5, 100, 1, 2, 0, 1, 10, 0⟩

/-- Fixture candle at timestamp 200. -/
def wC1 : Candle := ⟨"ACME", 5, 200, 2, 3, 1, 2, 20, 0⟩

/-- Fixture candle at timestamp 300. -/
def wC2 : Candle := ⟨"ACME", 5, 300, 3, 4, 2, 3, 30, 0⟩

/-- Fixture store holding the three candles, unsorted, with no injected
failure. -/
def wDB : DB := { rows := [wC2, wC0, wC1] }

/-- Fixture store holding no rows at all. -/
def wDBEmpty : DB := { rows := [] }

/-- Fixture store that fails at connection time. -/
def wDBConnFail : DB := { rows := [], connectError := some (.operationalError "refused") }

/-- Fixture store whose statement times out. -/
def wDBQueryFail : DB := { rows := [], queryError := some .queryCanceled }

/-- C1. Replay determinism: for every non-empty fetched history `cs` of
length N and every `stepSeconds`, the replay emits exactly one STATUS
frame with message `replay_starting` and `total_candles = N`, then the N
CANDLE frames, whose `seq` fields are exactly `0..N-1` and whose candles
are in ascending timestamp order, then one STATUS frame with message
`replay_complete` and `total_candles = N`, then closes normally (code
1000); and the frame sequence is independent of the `stepSeconds` value
(STATUS frames echo `stepSeconds` in their `step_seconds` payload field,
which `eraseStep` projects away). -/
theorem replay_determinism (db : DB) (ticker : String) (tf_min step step2 : Int)
    (cs : List Candle)
    (hfetch : get_candles db ticker tf_min 100000 "asc" = .ok cs)
    (hne : cs ≠ []) :
    framesOf (replay_candles db ticker tf_min step) =
      .status "replay_starting" ticker tf_min step cs.length
        :: (candleFrames 0 cs
            ++ [.status "replay_complete" ticker tf_min step cs.length])
    ∧ candleSeqs (framesOf (replay_candles db ticker tf_min step)) =
        List.range cs.length
    ∧ (candlesOf (framesOf (replay_candles db ticker tf_min step))).Pairwise
        (fun a b => a.ts ≤ b.ts)
    ∧ (replay_candles db ticker tf_min step).getLast? = some (.close 1000)
    ∧ (framesOf (replay_candles db ticker tf_min step)).map eraseStep =
        (framesOf (replay_candles db ticker tf_min step2)).map eraseStep := by
  have hshape := replay_frames_shape step hfetch hne
  have hshape2 := replay_frames_shape step2 hfetch hne
  refine ⟨hshape, ?_, ?_, ?_, ?_⟩
  · rw [hshape]
    simp only [candleSeqs, List.filterMap_cons, List.filterMap_append]
    rw [show List.filterMap
          (fun f => match f with | .candle _ s => some s | _ => none)
          (candleFrames 0 cs)
        = candleSeqs (candleFrames 0 cs) from rfl,
      candleSeqs_candleFrames, List.range_eq_range']
    simp
  · rw [hshape]
    have hcs := (get_candles_ok_inv hfetch).2.2.1
    rw [if_neg (by decide)] at hcs
    have hsorted : (insertionSort tsLe (matching db ticker tf_min)).Pairwise
        (fun x y => tsLe x y = true) :=
      pairwise_insertionSort tsLe tsLe_total tsLe_trans _
    have hp : cs.Pairwise (fun x y => tsLe x y = true) := by
      rw [hcs]
      exact hsorted.sublist (List.take_sublist _ _)
    simp only [candlesOf, List.filterMap_cons, List.filterMap_append]
    rw [show List.filterMap
          (fun f => match f with | .candle c _ => some c | _ => none)
          (candleFrames 0 cs)
        = candlesOf (candleFrames 0 cs) from rfl,
      candlesOf_candleFrames]
    simp only [List.filterMap_nil, List.append_nil, List.filterMap_cons]
    exact hp.imp (by intro a b hab; simpa [tsLe] using hab)
  · rw [show replay_candles db ticker tf_min step
        = (.send (.status "replay_starting" ticker tf_min step cs.length)
            :: (streamLoop cs.length step 0 cs
                ++ [.send (.status "replay_complete" ticker tf_min step cs.length)]))
          ++ [.close 1000] by
      rw [replay_events_shape step hfetch hne]; simp]
    exact List.getLast?_concat _
  · rw [hshape, hshape2]
    simp [eraseStep]

/-- C1 witness: the determinism theorem applied to the concrete fixture
store at `stepSeconds` 1 and 60: the three candle seqs are `0, 1, 2`. -/
theorem replay_determinism_witness :
    candleSeqs (framesOf (replay_candles wDB "ACME" 5 1)) = [0, 1, 2]
    ∧ (replay_candles wDB "ACME" 5 1).getLast? = some (.close 1000)
    ∧ (framesOf (replay_candles wDB "ACME" 5 1)).map eraseStep =
        (framesOf (replay_candles wDB "ACME" 5 60)).map eraseStep := by
  have h := replay_determinism wDB "ACME" 5 1 60 [wC0, wC1, wC2] rfl (by decide)
  exact ⟨h.2.1, h.2.2.2.1, h.2.2.2.2⟩

/-- C6. Replay pacing placement: the paced loop is exactly a sleep of
`stepSeconds` strictly between consecutive CANDLE frames (so the engine
suspends after the frame with index `seq` if and only if `seq < N-1`,
and never after the final frame), and a completed replay contains exactly
`N-1` suspensions. -/
theorem replay_pacing (db : DB) (ticker : String) (tf_min step : Int)
    (cs : List Candle)
    (hfetch : get_candles db ticker tf_min 100000 "asc" = .ok cs)
    (hne : cs ≠ []) :
    replay_candles db ticker tf_min step =
      .send (.status "replay_starting" ticker tf_min step cs.length)
        :: (pacedStream step 0 cs
            ++ [.send (.status "replay_complete" ticker tf_min step cs.length),
                .close 1000])
    ∧ countSleeps (replay_candles db ticker tf_min step) = cs.length - 1 := by
  have hshape := replay_events_shape step hfetch hne
  have hpaced : streamLoop cs.length step 0 cs = pacedStream step 0 cs :=
    streamLoop_eq_pacedStream step cs.length cs 0 (by simp)
  constructor
  · rw [hshape, hpaced]
  · rw [hshape, hpaced]
    have hcnt := countSleeps_pacedStream step 0 cs
    simp [countSleeps, List.countP_cons, List.countP_append, isSleep] at hcnt ⊢
    omega

/-- C6 witness: the pacing theorem at the fixture store with
`stepSeconds = 7`: the trace interleaves exactly two sleeps between the
three candle frames and none after the last. -/
theorem replay_pacing_witness :
    replay_candles wDB "ACME" 5 7 =
      [.send (.status "replay_starting" "ACME" 5 7 3),
       .send (.candle wC0 0), .sleep 7,
       .send (.candle wC1 1), .sleep 7,
       .send (.candle wC2 2),
       .send (.status "replay_complete" "ACME" 5 7 3), .close 1000]
    ∧ countSleeps (replay_candles wDB "ACME" 5 7) = 2 := by
  have h := replay_pacing wDB "ACME" 5 7 [wC0, wC1, wC2] rfl (by decide)
  exact ⟨by rw [h.1]; rfl, h.2⟩

/-- C9. `get_candles` never returns an empty list (an empty result set
raises `NotFoundError` instead), so the `if not candles` branch of
`replay_candles` is unreachable, and an empty history reaches the
NotFound exception handler: one status frame carrying the NotFound error
text, then close 1008. -/
theorem get_candles_never_empty :
    (∀ (db : DB) (ticker : String) (tf_min limit : Int) (order : String)
        (cs : List Candle),
      get_candles db ticker tf_min limit order = .ok cs → cs ≠ [])
    ∧ (∀ (db : DB) (ticker : String) (tf_min : Int),
        replayEmptyBranch db ticker tf_min = false)
    ∧ (∀ (db : DB) (ticker : String) (tf_min step : Int),
        db.connectError = none → db.queryError = none →
        tickerBlank ticker = false → 1 ≤ tf_min →
        matching db ticker tf_min = [] →
        replay_candles db ticker tf_min step =
          [.send (.status (noCandlesMsg ticker tf_min) ticker tf_min step 0),
           .close 1008]) := by
  refine ⟨?_, ?_, ?_⟩
  · intro db ticker tf_min limit order cs h
    exact (get_candles_ok_inv h).2.2.2
  · intro db ticker tf_min
    unfold replayEmptyBranch
    cases hg : get_candles db ticker tf_min 100000 "asc" with
    | ok cs =>
      have hne := (get_candles_ok_inv hg).2.2.2
      cases cs
      · exact absurd rfl hne
      · rfl
    | error e => rfl
  · intro db ticker tf_min step hc hq ht htf hm
    have hfetch : get_candles db ticker tf_min 100000 "asc" =
        .error (.notFound (noCandlesMsg ticker tf_min)) := by
      unfold get_candles
      rw [if_neg (by simp [ht]), if_neg (by omega), if_neg (by norm_num),
        if_neg (by decide)]
      simp [get_conn, hc, runQuery, hq, hm, insertionSort]
    unfold replay_candles
    rw [hfetch]

/-- C9 witness: with the empty fixture store the replay takes the
NotFound handler path, never the dead empty-list branch. -/
theorem get_candles_never_empty_witness :
    replay_candles wDBEmpty "ACME" 5 1 =
      [.send (.status (noCandlesMsg "ACME" 5) "ACME" 5 1 0), .close 1008]
    ∧ replayEmptyBranch wDBEmpty "ACME" 5 = false := by
  have h := get_candles_never_empty
  exact ⟨h.2.2 wDBEmpty "ACME" 5 1 rfl rfl (by decide) (by norm_num) rfl,
    h.2.1 wDBEmpty "ACME" 5⟩

/-- C2 counterexample: with an empty store for `("ACME", 5)` the replay
emits a STATUS frame whose message is the NotFound error text
`No candles found for ticker 'ACME' with timeframe 5min` — not the
literal `No candles found for ticker` the claim states — so the claimed
frame sequence is refuted at this input (total_candles 0 and close code
1008 do hold). -/
theorem replay_empty_message_counterexample :
    replay_candles wDBEmpty "ACME" 5 1 =
      [.send (.status "No candles found for ticker 'ACME' with timeframe 5min"
          "ACME" 5 1 0),
       .close 1008]
    ∧ replay_candles wDBEmpty "ACME" 5 1 ≠
      [.send (.status "No candles found for ticker" "ACME" 5 1 0),
       .close 1008] := by
  constructor
  · rfl
  · decide

/-- C2 (amended). Replay on empty history: when the store holds zero
candles for the requested (ticker, tf_min), the session emits exactly one
STATUS frame whose message is the NotFound error text
`No candles found for ticker '<ticker>' with timeframe <tf_min>min` and
whose total_candles is 0, emits zero CANDLE frames, and closes with the
policy-violation code 1008. -/
theorem replay_empty_history (db : DB) (ticker : String) (tf_min step : Int)
    (hc : db.connectError = none) (hq : db.queryError = none)
    (ht : tickerBlank ticker = false) (htf : 1 ≤ tf_min)
    (hm : matching db ticker tf_min = []) :
    replay_candles db ticker tf_min step =
      [.send (.status (noCandlesMsg ticker tf_min) ticker tf_min step 0),
       .close 1008]
    ∧ candleSeqs (framesOf (replay_candles db ticker tf_min step)) = [] := by
  have hfetch : get_candles db ticker tf_min 100000 "asc" =
      .error (.notFound (noCandlesMsg ticker tf_min)) := by
    unfold get_candles
    rw [if_neg (by simp [ht]), if_neg (by omega), if_neg (by norm_num),
      if_neg (by decide)]
    simp [get_conn, hc, runQuery, hq, hm, insertionSort]
  have htrace : replay_candles db ticker tf_min step =
      [.send (.status (noCandlesMsg ticker tf_min) ticker tf_min step 0),
       .close 1008] := by
    unfold replay_candles
    rw [hfetch]
  refine ⟨htrace, ?_⟩
  rw [htrace]
  rfl

/-- C2 witness: the amended statement at the empty fixture store. -/
theorem replay_empty_history_witness :
    replay_candles wDBEmpty "ACME" 5 15 =
      [.send (.status (noCandlesMsg "ACME" 5) "ACME" 5 15 0), .close 1008]
    ∧ candleSeqs (framesOf (replay_candles wDBEmpty "ACME" 5 15)) = [] :=
  replay_empty_history wDBEmpty "ACME" 5 15 rfl rfl (by decide) (by norm_num) rfl

/-- C3. Zero-row semantics split: for valid arguments and a healthy store
with zero matching rows, `get_candles` and `get_candles_range` fail with
NotFound, while `list_symbols` returns an empty list and
`get_first_last_ts` returns `none`, neither raising an error. -/
theorem zero_rows_semantics (db : DB) (ticker order : String)
    (tf_min limit : Int) (pfx : Option String) (start end_ : PyDatetime)
    (hc : db.connectError = none) (hq : db.queryError = none)
    (ht : tickerBlank ticker = false) (htf : 1 ≤ tf_min) (hl : 1 ≤ limit)
    (ho : order = "asc" ∨ order = "desc")
    (hse : pyGt start end_ = some false)
    (hrows : db.rows = []) :
    get_candles db ticker tf_min limit order =
      .error (.notFound (noCandlesMsg ticker tf_min))
    ∧ get_candles_range db ticker tf_min start end_ limit =
      .error (.notFound (noCandlesRangeMsg ticker tf_min))
    ∧ list_symbols db limit pfx = .ok []
    ∧ get_first_last_ts db ticker tf_min = .ok none := by
  have hm : matching db ticker tf_min = [] := by simp [matching, hrows]
  refine ⟨?_, ?_, ?_, ?_⟩
  · unfold get_candles
    rw [if_neg (by simp [ht]), if_neg (by omega), if_neg (by omega),
      if_neg (by tauto)]
    rcases ho with ho | ho <;>
      simp [get_conn, hc, runQuery, hq, hm, insertionSort, ho]
  · unfold get_candles_range
    rw [if_neg (by simp [ht]), if_neg (by omega), if_neg (by omega)]
    simp [hse, get_conn, hc, runQuery, hq, hm, insertionSort]
  · unfold list_symbols
    rw [if_neg (by omega)]
    cases pfx <;> simp [get_conn, hc, runQuery, hq, hrows, insertionSort]
  · unfold get_first_last_ts
    rw [if_neg (by simp [ht]), if_neg (by omega)]
    simp [get_conn, hc, runQuery, hq, hm]

/-- C3 witness: the split at the empty fixture store, with an equal pair
of naive range bounds. -/
theorem zero_rows_semantics_witness :
    get_candles wDBEmpty "ACME" 5 10 "asc" =
      .error (.notFound (noCandlesMsg "ACME" 5))
    ∧ get_candles_range wDBEmpty "ACME" 5 ⟨2025, 1, 1, 0, 0, 0, none⟩
        ⟨2025, 1, 1, 0, 0, 0, none⟩ 10 =
      .error (.notFound (noCandlesRangeMsg "ACME" 5))
    ∧ list_symbols wDBEmpty 10 none = .ok []
    ∧ get_first_last_ts wDBEmpty "ACME" 5 = .ok none :=
  zero_rows_semantics wDBEmpty "ACME" "asc" 5 10 none
    ⟨2025, 1, 1, 0, 0, 0, none⟩ ⟨2025, 1, 1, 0, 0, 0, none⟩
    rfl rfl (by decide) (by norm_num) (by norm_num) (Or.inl rfl)
    (by simp [pyGt]) rfl

/-- C4. Limit bounds: for every limit outside `[1, MAX_LIMIT]`, each of
the three REST endpoints rejects with InvalidArgument, and its response
is independent of the store state (no connection is opened and no query
is issued before the rejection). -/
theorem limit_bounds_reject (db db2 : DB) (limit tf_min : Int)
    (ticker order start end_ : String) (pfx : Option String)
    (hout : limit < 1 ∨ MAX_LIMIT < limit) :
    (∃ m, get_symbols db limit pfx = .error (.invalidArgument m))
    ∧ (∃ m, get_candles_endpoint db ticker tf_min limit order =
        .error (.invalidArgument m))
    ∧ (∃ m, get_candles_range_endpoint db ticker tf_min start end_ limit =
        .error (.invalidArgument m))
    ∧ get_symbols db limit pfx = get_symbols db2 limit pfx
    ∧ get_candles_endpoint db ticker tf_min limit order =
        get_candles_endpoint db2 ticker tf_min limit order
    ∧ get_candles_range_endpoint db ticker tf_min start end_ limit =
        get_candles_range_endpoint db2 ticker tf_min start end_ limit := by
  have h2 : tf_min < 1 ∨ limit < 1 ∨ MAX_LIMIT < limit
      ∨ ¬ (order = "asc" ∨ order = "desc") := by tauto
  have h3 : tf_min < 1 ∨ limit < 1 ∨ MAX_LIMIT < limit := by tauto
  unfold get_symbols get_candles_endpoint get_candles_range_endpoint
  simp only [if_pos hout, if_pos h2, if_pos h3]
  refine ⟨⟨_, rfl⟩, ⟨_, rfl⟩, ⟨_, rfl⟩, ?_, ?_, ?_⟩ <;> trivial

/-- C4 witness: limit 6000 rejected by all three endpoints, with the
response unchanged between a healthy store and one that would fail at
connection time. -/
theorem limit_bounds_reject_witness :
    (∃ m, get_symbols wDB 6000 none = .error (.invalidArgument m))
    ∧ (∃ m, get_candles_endpoint wDB "ACME" 5 6000 "asc" =
        .error (.invalidArgument m))
    ∧ (∃ m, get_candles_range_endpoint wDB "ACME" 5 "2025-01-01" "2025-01-02" 6000 =
        .error (.invalidArgument m))
    ∧ get_symbols wDB 6000 none = get_symbols wDBConnFail 6000 none
    ∧ get_candles_endpoint wDB "ACME" 5 6000 "asc" =
        get_candles_endpoint wDBConnFail "ACME" 5 6000 "asc"
    ∧ get_candles_range_endpoint wDB "ACME" 5 "2025-01-01" "2025-01-02" 6000 =
        get_candles_range_endpoint wDBConnFail "ACME" 5 "2025-01-01" "2025-01-02" 6000 :=
  limit_bounds_reject wDB wDBConnFail 6000 5 "ACME" "asc"
    "2025-01-01" "2025-01-02" none (by norm_num [MAX_LIMIT])

/-- C5. Range order check: whenever both bound strings parse and the
parsed start compares greater than the parsed end, `GET /candles/range`
fails with InvalidArgument, for every ticker, tf_min and limit; and when
the two parsed bounds are equal (and the constraint checks pass) the
request is accepted: the endpoint's response is exactly the mapped result
of the store query. -/
theorem range_start_after_end (db : DB) (ticker : String) (tf_min limit : Int)
    (start end_ : String) (sdt edt : PyDatetime)
    (hs : fromisoformat (pyReplaceZ start) = some sdt)
    (he : fromisoformat (pyReplaceZ end_) = some edt) :
    (pyGt sdt edt = some true →
      ∃ m, get_candles_range_endpoint db ticker tf_min start end_ limit =
        .error (.invalidArgument m))
    ∧ (sdt = edt → ¬ (tf_min < 1 ∨ limit < 1 ∨ MAX_LIMIT < limit) →
      get_candles_range_endpoint db ticker tf_min start end_ limit =
        (match get_candles_range db ticker tf_min sdt edt limit with
         | .ok cs => .ok ⟨cs, cs.length⟩
         | .error e => .error (mapCrud e))) := by
  constructor
  · intro hgt
    unfold get_candles_range_endpoint
    by_cases hv : tf_min < 1 ∨ limit < 1 ∨ MAX_LIMIT < limit
    · rw [if_pos hv]
      exact ⟨_, rfl⟩
    · rw [if_neg hv]
      simp only [hs, he, hgt]
      exact ⟨_, rfl⟩
  · intro heq hv
    subst heq
    have hgt : pyGt sdt sdt = some false := by
      unfold pyGt
      cases sdt.utcoffset <;> simp
    unfold get_candles_range_endpoint
    rw [if_neg hv]
    simp only [hs, he, hgt]

/-- C5 witness: `2025-01-02 > 2025-01-01` is rejected, and an equal pair
of bounds reaches the store query (here ending in NotFound on the empty
fixture store). -/
theorem range_start_after_end_witness :
    (∃ m, get_candles_range_endpoint wDBEmpty "ACME" 5
        "2025-01-02" "2025-01-01" 10 = .error (.invalidArgument m))
    ∧ get_candles_range_endpoint wDBEmpty "ACME" 5
        "2025-01-01" "2025-01-01" 10 =
      (match get_candles_range wDBEmpty "ACME" 5 ⟨2025, 1, 1, 0, 0, 0, none⟩
          ⟨2025, 1, 1, 0, 0, 0, none⟩ 10 with
       | .ok cs => .ok ⟨cs, cs.length⟩
       | .error e => .error (mapCrud e)) := by
  have h1 := range_start_after_end wDBEmpty "ACME" 5 10 "2025-01-02" "2025-01-01"
    ⟨2025, 1, 2, 0, 0, 0, none⟩ ⟨2025, 1, 1, 0, 0, 0, none⟩ rfl rfl
  have h2 := range_start_after_end wDBEmpty "ACME" 5 10 "2025-01-01" "2025-01-01"
    ⟨2025, 1, 1, 0, 0, 0, none⟩ ⟨2025, 1, 1, 0, 0, 0, none⟩ rfl rfl
  refine ⟨h1.1 (by simp [pyGt, PyDatetime.naiveSeconds, daysFromCivil]), ?_⟩
  exact h2.2 rfl (by norm_num [MAX_LIMIT])

/-- C7. Range timestamp parsing: a bound string with a trailing literal
`Z` UTC marker is equivalent to the same string with an explicit
`+00:00` offset — the endpoint's `replace('Z', '+00:00')` maps both to
the identical string, so they parse to the same instant and yield the
same response, in either the start or the end position; and a string the
parser rejects makes the endpoint fail with InvalidArgument, in either
position. -/
theorem range_timestamp_parsing (db : DB) (ticker : String)
    (tf_min limit : Int) (s other : String) (d : PyDatetime)
    (hnoZ : 'Z' ∉ s.data)
    (hparse : fromisoformat (pyReplaceZ (s ++ "Z")) = some d) :
    fromisoformat (pyReplaceZ (s ++ "Z")) =
      fromisoformat (pyReplaceZ (s ++ "+00:00"))
    ∧ fromisoformat (s ++ "+00:00") = some d
    ∧ get_candles_range_endpoint db ticker tf_min (s ++ "Z") other limit =
        get_candles_range_endpoint db ticker tf_min (s ++ "+00:00") other limit
    ∧ get_candles_range_endpoint db ticker tf_min other (s ++ "Z") limit =
        get_candles_range_endpoint db ticker tf_min other (s ++ "+00:00") limit
    ∧ (∀ t : String, fromisoformat (pyReplaceZ t) = none →
        (∃ m, get_candles_range_endpoint db ticker tf_min t other limit =
          .error (.invalidArgument m))
        ∧ (∃ m, get_candles_range_endpoint db ticker tf_min other t limit =
          .error (.invalidArgument m))) := by
  have hZ := pyReplaceZ_trailing s hnoZ
  have hOff := pyReplaceZ_offset s hnoZ
  have heq : pyReplaceZ (s ++ "Z") = pyReplaceZ (s ++ "+00:00") := by
    rw [hZ, hOff]
  have hparse2 : fromisoformat (pyReplaceZ (s ++ "+00:00")) = some d := by
    rw [← heq]
    exact hparse
  refine ⟨by rw [heq], ?_, ?_, ?_, ?_⟩
  · rw [← hZ]
    exact hparse
  · unfold get_candles_range_endpoint
    by_cases hv : tf_min < 1 ∨ limit < 1 ∨ MAX_LIMIT < limit
    · rw [if_pos hv, if_pos hv]
    · rw [if_neg hv, if_neg hv]
      simp only [hparse, hparse2]
  · unfold get_candles_range_endpoint
    by_cases hv : tf_min < 1 ∨ limit < 1 ∨ MAX_LIMIT < limit
    · rw [if_pos hv, if_pos hv]
    · rw [if_neg hv, if_neg hv]
      cases ho : fromisoformat (pyReplaceZ other) with
      | none => simp only [ho]
      | some od => simp only [ho, hparse, hparse2]
  · intro t htn
    constructor
    · unfold get_candles_range_endpoint
      by_cases hv : tf_min < 1 ∨ limit < 1 ∨ MAX_LIMIT < limit
      · rw [if_pos hv]
        exact ⟨_, rfl⟩
      · rw [if_neg hv]
        simp only [htn]
        exact ⟨_, rfl⟩
    · unfold get_candles_range_endpoint
      by_cases hv : tf_min < 1 ∨ limit < 1 ∨ MAX_LIMIT < limit
      · rw [if_pos hv]
        exact ⟨_, rfl⟩
      · rw [if_neg hv]
        cases ho : fromisoformat (pyReplaceZ other) with
        | none =>
          simp only [ho]
          exact ⟨_, rfl⟩
        | some od =>
          simp only [ho, htn]
          exact ⟨_, rfl⟩

/-- C7 witness: `2025-01-02T03:04:05Z` and `2025-01-02T03:04:05+00:00`
yield the same response in the start position, and an unparseable bound
is rejected with InvalidArgument. -/
theorem range_timestamp_parsing_witness :
    fromisoformat ("2025-01-02T03:04:05" ++ "+00:00") =
      some ⟨2025, 1, 2, 3, 4, 5, some 0⟩
    ∧ get_candles_range_endpoint wDB "ACME" 5
        ("2025-01-02T03:04:05" ++ "Z") "2025-01-03" 10 =
      get_candles_range_endpoint wDB "ACME" 5
        ("2025-01-02T03:04:05" ++ "+00:00") "2025-01-03" 10
    ∧ (∃ m, get_candles_range_endpoint wDB "ACME" 5 "garbage" "2025-01-03" 10 =
        .error (.invalidArgument m)) := by
  have h := range_timestamp_parsing wDB "ACME" 5 10 "2025-01-02T03:04:05"
    "2025-01-03" ⟨2025, 1, 2, 3, 4, 5, some 0⟩ (by decide) rfl
  exact ⟨h.2.1, h.2.2.1, (h.2.2.2.2 "garbage" rfl).1⟩

/-- C8. Store failure mapping: with valid arguments, a connection-time
failure of any kind, or a statement-time failure (timeout or other
error), surfaces from each of the four query-layer operations as
`DatabaseConnectionError` (the design's Unavailable) carrying the mapped
diagnostic message; and NotFound and BadRequest never arise from a store
error — a NotFound result implies the store raised nothing, and a
BadRequest result cannot occur at all under valid arguments. -/
theorem store_failure_mapping (db : DB) (ticker order : String)
    (tf_min limit : Int) (pfx : Option String) (start end_ : PyDatetime)
    (c : ConnErr) (q : QueryErr)
    (ht : tickerBlank ticker = false) (htf : 1 ≤ tf_min) (hl : 1 ≤ limit)
    (ho : order = "asc" ∨ order = "desc")
    (hse : pyGt start end_ = some false) :
    (db.connectError = some c →
      list_symbols db limit pfx = .error (.dbError (connErrMsg c))
      ∧ get_candles db ticker tf_min limit order =
          .error (.dbError (connErrMsg c))
      ∧ get_candles_range db ticker tf_min start end_ limit =
          .error (.dbError (connErrMsg c))
      ∧ get_first_last_ts db ticker tf_min = .error (.dbError (connErrMsg c)))
    ∧ (db.connectError = none → db.queryError = some q →
      list_symbols db limit pfx = .error (.dbError (queryErrMsg q))
      ∧ get_candles db ticker tf_min limit order =
          .error (.dbError (queryErrMsg q))
      ∧ get_candles_range db ticker tf_min start end_ limit =
          .error (.dbError (queryErrMsg q))
      ∧ get_first_last_ts db ticker tf_min = .error (.dbError (queryErrMsg q)))
    ∧ (∀ m, get_candles db ticker tf_min limit order = .error (.notFound m) →
        db.connectError = none ∧ db.queryError = none)
    ∧ (∀ m, get_candles_range db ticker tf_min start end_ limit =
        .error (.notFound m) →
        db.connectError = none ∧ db.queryError = none)
    ∧ (∀ m, get_candles db ticker tf_min limit order ≠
        .error (.badRequest m))
    ∧ (∀ m, get_candles_range db ticker tf_min start end_ limit ≠
        .error (.badRequest m)) := by
  have hto : ¬ (order = "asc" ∨ order = "desc") = False := by
    simp only [eq_iff_iff, iff_false, not_not]
    exact ho
  refine ⟨?_, ?_, ?_, ?_, ?_, ?_⟩
  · intro hcc
    refine ⟨?_, ?_, ?_, ?_⟩
    · unfold list_symbols
      rw [if_neg (by omega)]
      simp [get_conn, hcc]
    · unfold get_candles
      rw [if_neg (by simp [ht]), if_neg (by omega), if_neg (by omega),
        if_neg (by tauto)]
      simp [get_conn, hcc]
    · unfold get_candles_range
      rw [if_neg (by simp [ht]), if_neg (by omega), if_neg (by omega)]
      simp [hse, get_conn, hcc]
    · unfold get_first_last_ts
      rw [if_neg (by simp [ht]), if_neg (by omega)]
      simp [get_conn, hcc]
  · intro hcc hqq
    refine ⟨?_, ?_, ?_, ?_⟩
    · unfold list_symbols
      rw [if_neg (by omega)]
      simp [get_conn, hcc, runQuery, hqq]
    · unfold get_candles
      rw [if_neg (by simp [ht]), if_neg (by omega), if_neg (by omega),
        if_neg (by tauto)]
      simp [get_conn, hcc, runQuery, hqq]
    · unfold get_candles_range
      rw [if_neg (by simp [ht]), if_neg (by omega), if_neg (by omega)]
      simp [hse, get_conn, hcc, runQuery, hqq]
    · unfold get_first_last_ts
      rw [if_neg (by simp [ht]), if_neg (by omega)]
      simp [get_conn, hcc, runQuery, hqq]
  · intro m hres
    rcases hcc : db.connectError with _ | e
    · rcases hqq : db.queryError with _ | q2
      · exact ⟨rfl, rfl⟩
      · exfalso
        unfold get_candles at hres
        rw [if_neg (by simp [ht]), if_neg (by omega), if_neg (by omega),
          if_neg (by tauto)] at hres
        simp [get_conn, hcc, runQuery, hqq] at hres
    · exfalso
      unfold get_candles at hres
      rw [if_neg (by simp [ht]), if_neg (by omega), if_neg (by omega),
        if_neg (by tauto)] at hres
      simp [get_conn, hcc] at hres
  · intro m hres
    rcases hcc : db.connectError with _ | e
    · rcases hqq : db.queryError with _ | q2
      · exact ⟨rfl, rfl⟩
      · exfalso
        unfold get_candles_range at hres
        rw [if_neg (by simp [ht]), if_neg (by omega), if_neg (by omega)] at hres
        simp [hse, get_conn, hcc, runQuery, hqq] at hres
    · exfalso
      unfold get_candles_range at hres
      rw [if_neg (by simp [ht]), if_neg (by omega), if_neg (by omega)] at hres
      simp [hse, get_conn, hcc] at hres
  · intro m hres
    unfold get_candles at hres
    rw [if_neg (by simp [ht]), if_neg (by omega), if_neg (by omega),
      if_neg (by tauto)] at hres
    rcases hcc : db.connectError with _ | e
    · rcases hqq : db.queryError with _ | q2
      · rcases ho with ho | ho <;>
          simp only [get_conn, runQuery, hcc, hqq, ho] at hres <;>
          split at hres <;> split at hres <;> simp at hres
      · simp [get_conn, hcc, runQuery, hqq] at hres
    · simp [get_conn, hcc] at hres
  · intro m hres
    unfold get_candles_range at hres
    rw [if_neg (by simp [ht]), if_neg (by omega), if_neg (by omega)] at hres
    rcases hcc : db.connectError with _ | e
    · rcases hqq : db.queryError with _ | q2
      · simp only [hse, get_conn, runQuery, hcc, hqq] at hres
        split at hres <;> simp at hres
      · simp [hse, get_conn, hcc, runQuery, hqq] at hres
    · simp [hse, get_conn, hcc] at hres

/-- C8 witness: the mapping at the two failing fixture stores: the
connection failure and the statement timeout both surface as
`DatabaseConnectionError` from `get_candles`. -/
theorem store_failure_mapping_witness :
    get_candles wDBConnFail "ACME" 5 10 "asc" =
      .error (.dbError (connErrMsg (.operationalError "refused")))
    ∧ get_candles wDBQueryFail "ACME" 5 10 "asc" =
      .error (.dbError (queryErrMsg .queryCanceled)) := by
  have h1 := store_failure_mapping wDBConnFail "ACME" "asc" 5 10 none
    ⟨2025, 1, 1, 0, 0, 0, none⟩ ⟨2025, 1, 1, 0, 0, 0, none⟩
    (.operationalError "refused") .queryCanceled
    (by decide) (by norm_num) (by norm_num) (Or.inl rfl) (by simp [pyGt])
  have h2 := store_failure_mapping wDBQueryFail "ACME" "asc" 5 10 none
    ⟨2025, 1, 1, 0, 0, 0, none⟩ ⟨2025, 1, 1, 0, 0, 0, none⟩
    (.operationalError "refused") .queryCanceled
    (by decide) (by norm_num) (by norm_num) (Or.inl rfl) (by simp [pyGt])
  exact ⟨(h1.1 rfl).2.1, (h2.2.1 rfl rfl).2.1⟩

/-- C10. Query-layer re-validation: each crud operation raises
`BadRequestError` whenever its own arguments are invalid (limit below 1,
blank ticker, tf_min below 1, or an order other than asc/desc), and it
does so before opening any store connection — the result is the same for
any store state, including failing ones. -/
theorem crud_revalidation (db db2 : DB) (ticker order : String)
    (tf_min limit : Int) (pfx : Option String) (start end_ : PyDatetime) :
    (limit < 1 →
      (∃ m, list_symbols db limit pfx = .error (.badRequest m))
      ∧ list_symbols db limit pfx = list_symbols db2 limit pfx)
    ∧ ((tickerBlank ticker = true ∨ tf_min < 1 ∨ limit < 1
        ∨ ¬ (order = "asc" ∨ order = "desc")) →
      (∃ m, get_candles db ticker tf_min limit order = .error (.badRequest m))
      ∧ get_candles db ticker tf_min limit order =
          get_candles db2 ticker tf_min limit order)
    ∧ ((tickerBlank ticker = true ∨ tf_min < 1 ∨ limit < 1) →
      (∃ m, get_candles_range db ticker tf_min start end_ limit =
        .error (.badRequest m))
      ∧ get_candles_range db ticker tf_min start end_ limit =
          get_candles_range db2 ticker tf_min start end_ limit)
    ∧ ((tickerBlank ticker = true ∨ tf_min < 1) →
      (∃ m, get_first_last_ts db ticker tf_min = .error (.badRequest m))
      ∧ get_first_last_ts db ticker tf_min =
          get_first_last_ts db2 ticker tf_min) := by
  refine ⟨?_, ?_, ?_, ?_⟩
  · intro h
    unfold list_symbols
    simp only [if_pos h]
    exact ⟨⟨_, rfl⟩, by trivial⟩
  · intro h
    unfold get_candles
    by_cases h1 : tickerBlank ticker = true
    · simp only [if_pos h1]
      exact ⟨⟨_, rfl⟩, by trivial⟩
    · simp only [if_neg h1]
      by_cases h2 : tf_min < 1
      · simp only [if_pos h2]
        exact ⟨⟨_, rfl⟩, by trivial⟩
      · simp only [if_neg h2]
        by_cases h3 : limit < 1
        · simp only [if_pos h3]
          exact ⟨⟨_, rfl⟩, by trivial⟩
        · simp only [if_neg h3]
          have h4 : ¬ (order = "asc" ∨ order = "desc") := by tauto
          simp only [if_pos h4]
          exact ⟨⟨_, rfl⟩, by trivial⟩
  · intro h
    unfold get_candles_range
    by_cases h1 : tickerBlank ticker = true
    · simp only [if_pos h1]
      exact ⟨⟨_, rfl⟩, by trivial⟩
    · simp only [if_neg h1]
      by_cases h2 : tf_min < 1
      · simp only [if_pos h2]
        exact ⟨⟨_, rfl⟩, by trivial⟩
      · simp only [if_neg h2]
        have h3 : limit < 1 := by tauto
        simp only [if_pos h3]
        exact ⟨⟨_, rfl⟩, by trivial⟩
  · intro h
    unfold get_first_last_ts
    by_cases h1 : tickerBlank ticker = true
    · simp only [if_pos h1]
      exact ⟨⟨_, rfl⟩, by trivial⟩
    · simp only [if_neg h1]
      have h2 : tf_min < 1 := by tauto
      simp only [if_pos h2]
      exact ⟨⟨_, rfl⟩, by trivial⟩

/-- C10 witness: a zero limit, a whitespace ticker, a zero tf_min and a
bad order are each rejected with `BadRequestError` identically on a
healthy store and on one that would fail at connection time. -/
theorem crud_revalidation_witness :
    (∃ m, list_symbols wDB 0 none = .error (.badRequest m))
    ∧ list_symbols wDB 0 none = list_symbols wDBConnFail 0 none
    ∧ (∃ m, get_candles wDB " " 5 10 "asc" = .error (.badRequest m))
    ∧ (∃ m, get_candles_range wDB "ACME" 0 ⟨2025, 1, 1, 0, 0, 0, none⟩
        ⟨2025, 1, 1, 0, 0, 0, none⟩ 10 = .error (.badRequest m))
    ∧ (∃ m, get_first_last_ts wDB " " 5 = .error (.badRequest m)) := by
  have h := crud_revalidation wDB wDBConnFail "ACME" "asc" 0 0 none
    ⟨2025, 1, 1, 0, 0, 0, none⟩ ⟨2025, 1, 1, 0, 0, 0, none⟩
  have h2 := crud_revalidation wDB wDBConnFail " " "asc" 5 10 none
    ⟨2025, 1, 1, 0, 0, 0, none⟩ ⟨2025, 1, 1, 0, 0, 0, none⟩
  refine ⟨(h.1 (by norm_num)).1, (h.1 (by norm_num)).2,
    (h2.2.1 (Or.inl (by decide))).1, ?_, (h2.2.2.2 (Or.inl (by decide))).1⟩
  have h3 := crud_revalidation wDB wDBConnFail "ACME" "asc" 0 10 none
    ⟨2025, 1, 1, 0, 0, 0, none⟩ ⟨2025, 1, 1, 0, 0, 0, none⟩
  exact (h3.2.2.1 (Or.inr (Or.inl (by norm_num)))).1

end MarketData
